import Mathlib

/-!
Shallow embedding of the weekly-progress-insights platform's auth core:
the role & team resolution pipeline (context/AuthContext.jsx), the OAuth
callback session-establishment flow (pages/AuthCallback.jsx and its
code-exchanging variant), and the team service (services/teamService.js).
JavaScript nullable strings are modelled as `Option String`; JS truthiness,
`||`-chains and `??`-chains are modelled explicitly.
-/

namespace WeeklyReport

/-- JS truthiness of a nullable string: `null`/`undefined` and `""` are falsy. -/
def truthy : Option String → Bool
  | none => false
  | some s => !(s == "")

/-- JS `a || b || null` on nullable strings: first truthy operand, else null. -/
def jsOrNull (a b : Option String) : Option String :=
  if truthy a then a else if truthy b then b else none

/-- JS string-or-empty coercion `(x || '')` composed with reading a nullable. -/
def optStr : Option String → String
  | none => ""
  | some s => s

/-- ASCII lowering, as applied by `String.prototype.toLowerCase` on the
ASCII role and email strings this code handles. -/
def jsToLower (s : String) : String :=
  String.mk (s.toList.map Char.toLower)

/-- ASCII raising, as applied by `String.prototype.toUpperCase`. -/
def jsToUpper (s : String) : String :=
  String.mk (s.toList.map Char.toUpper)

/-- Whitespace trim at both ends, as applied by `String.prototype.trim` to the
ASCII strings this code handles. -/
def jsTrim (s : String) : String :=
  String.mk ((s.toList.dropWhile Char.isWhitespace).reverse.dropWhile Char.isWhitespace).reverse

/-- Boolean list-prefix test on characters. -/
def isPre : List Char → List Char → Bool
  | [], _ => true
  | _ :: _, [] => false
  | a :: as, b :: bs => a == b && isPre as bs

/-- Boolean contiguous-sublist test: does the second list contain the first? -/
def subList (needle : List Char) : List Char → Bool
  | [] => needle.isEmpty
  | c :: rest => isPre needle (c :: rest) || subList needle rest

/-- JS `hay.includes(needle)` on strings. -/
def strHasSub (hay needle : String) : Bool :=
  subList needle.toList hay.toList

/-- JS `hay.endsWith(needle)` on strings. -/
def strEndsWith (hay needle : String) : Bool :=
  isPre needle.toList.reverse hay.toList.reverse

/-- A team value as held in context state and local storage: `{ id, name }`. -/
structure Team where
  id : String
  name : String
deriving DecidableEq, Repr

/-- The slice of a Supabase `User` consulted by the auth context:
`app_metadata.role`, `app_metadata.roles`, `user_metadata.role`,
`user_metadata.roles`, team metadata and the email. -/
structure User where
  id : Option String
  email : Option String
  app_metadata_role : Option String
  app_metadata_roles : List String
  user_metadata_role : Option String
  user_metadata_roles : List String
  app_metadata_team_id : Option String
  user_metadata_team_id : Option String
  user_metadata_team_name : Option String
deriving DecidableEq, Repr

/-- The closed role check `role === 'admin' || role === 'manager' || role === 'employee'`. -/
def validRoleStr (r : String) : Bool :=
  r == "admin" || r == "manager" || r == "employee"

/-- Embedding of `deriveRoleFromUser` (context/AuthContext.jsx): selects the
first truthy entry among `app_metadata.role`, `app_metadata.roles[0]`,
`user_metadata.role`, `user_metadata.roles[0]`; lowercases and trims it; if
that string is a valid role it is returned, otherwise the email heuristic
applies with default `employee`. -/
def deriveRoleFromUser : Option User → Option String
  | none => none
  | some u =>
    let appRole := jsOrNull u.app_metadata_role u.app_metadata_roles.head?
    let metaRole := jsOrNull u.user_metadata_role u.user_metadata_roles.head?
    let role := jsTrim (jsToLower (optStr (jsOrNull appRole metaRole)))
    if validRoleStr role then some role
    else
      let email := jsToLower (optStr u.email)
      if strHasSub email "admin" || strEndsWith email "+admin@test.com" then some "admin"
      else if strHasSub email "manager" || strHasSub email "lead" || strEndsWith email "+manager@test.com" then some "manager"
      else some "employee"

/-- Raw `profiles` row columns selected by the context: `role, team_id, team_name`. -/
structure ProfileRow where
  role : Option String
  team_id : Option String
  team_name : Option String
deriving DecidableEq, Repr

/-- Outcome of the `profiles` lookup: unreachable (client missing, RLS denial,
query error or exception — all collapse to `{role: null, team: null}`) or a row. -/
inductive ProfileOutcome
  | unreachable
  | row (data : ProfileRow)
deriving DecidableEq, Repr

/-- Result shape of `loadRoleFromProfiles`. -/
structure ProfileInfo where
  role : Option String
  team : Option Team
deriving DecidableEq, Repr

/-- Embedding of `loadRoleFromProfiles` (context/AuthContext.jsx): validates the
row's role against the closed set after lowercasing and trimming, and builds a
team from `team_id`/`team_name` when `team_id` is truthy. -/
def loadRoleFromProfiles : ProfileOutcome → ProfileInfo
  | .unreachable => ⟨none, none⟩
  | .row d =>
    let pRole := jsTrim (jsToLower (optStr d.role))
    let nextRole :=
      if !(pRole == "") && (pRole == "employee" || pRole == "manager" || pRole == "admin")
      then some pRole else none
    let nextTeam :=
      if truthy d.team_id then some (Team.mk (optStr d.team_id) (optStr d.team_name)) else none
    ⟨nextRole, nextTeam⟩

/-- The `(role, team, teamPersisted)` triple published by the auth context. -/
structure ResolvedState where
  role : Option String
  team : Option Team
  teamPersisted : Bool
deriving DecidableEq, Repr

/-- Embedding of the role & team resolution pipeline run by `initSession` and by
each auth-state-change handler (context/AuthContext.jsx): derive a role from
metadata or the email heuristic, let a truthy profile role override it, then
resolve the team from metadata, else the profile row, else the local cache. -/
def resolvePipeline (user : Option User) (profile : ProfileOutcome) (cache : Option Team) : ResolvedState :=
  let initialRole := deriveRoleFromUser user
  let info := match user with
    | none => (⟨none, none⟩ : ProfileInfo)
    | some _ => loadRoleFromProfiles profile
  let role :=
    if truthy info.role && decide (info.role ≠ initialRole) then info.role else initialRole
  let appTid := match user with | none => none | some u => u.app_metadata_team_id
  let metaTid := match user with | none => none | some u => u.user_metadata_team_id
  let metaTname := match user with | none => none | some u => u.user_metadata_team_name
  let metaTeamId := jsOrNull appTid metaTid
  if truthy metaTeamId then
    ⟨role, some (Team.mk (optStr metaTeamId) (optStr metaTname)), true⟩
  else match info.team with
    | some t => ⟨role, some t, true⟩
    | none => ⟨role, cache, false⟩

/-! ## Team service (services/teamService.js) -/

/-- Outcome of the backend `POST /users/me/team` request as observed by
`setUserTeam`: the request throws, or returns a response from which the
`ok` flag is computed. -/
inductive PostOutcome
  | throws
  | ok (success : Bool)
deriving DecidableEq, Repr

/-- Embedding of `setUserTeam` (services/teamService.js): `none` models a thrown
exception, `some (available, success)` a returned record. The id is trimmed and
a blank id throws; without a configured backend it reports
`{available: false, success: true}`; otherwise the POST outcome decides. -/
def setUserTeam (available : Bool) (post : PostOutcome) (teamId : String) : Option (Bool × Bool) :=
  if jsTrim teamId == "" then none
  else if !available then some (false, true)
  else match post with
    | .throws => none
    | .ok s => some (true, s)

/-- A candidate team value passed to `setTeamSelection`; both fields may be
absent or empty, as in the JS call sites. -/
structure TeamSel where
  id : Option String
  name : Option String
deriving DecidableEq, Repr

/-- The `{id: String(team.id), name: team.name || ''}` normalisation applied by
both `setTeamSelection` and `storeTeamLocal`. -/
def normTeam (t : TeamSel) : Team :=
  ⟨optStr t.id, optStr (jsOrNull t.name none)⟩

/-- The slice of auth-context state touched by team selection: the in-memory
team, the `teamPersisted` flag, and the browser-local cached selection. -/
structure AuthTeamState where
  team : Option Team
  teamPersisted : Bool
  cache : Option Team
deriving DecidableEq, Repr

/-- Embedding of `setTeamSelection` (context/AuthContext.jsx): a falsy or
id-less team is rejected leaving state unchanged; else, when the backend is
available and `setUserTeam` reports `available && success`, the team is set,
`teamPersisted := true` and the local cache is cleared; on any other outcome
(backend unavailable, thrown request, reported failure) the team is set with
`teamPersisted := false` and stored in the local cache. Returns the new state
and the `persisted` flag of the result object. -/
def setTeamSelection (available : Bool) (post : PostOutcome) (st : AuthTeamState)
    (nextTeam : Option TeamSel) : AuthTeamState × Bool :=
  match nextTeam with
  | none => (st, false)
  | some t =>
    if !(truthy t.id) then (st, false)
    else
      let persistedViaBackend :=
        if available then
          match setUserTeam available post (optStr t.id) with
          | none => false
          | some (av, succ) => av && succ
        else false
      if persistedViaBackend then
        (⟨some (normTeam t), true, none⟩, true)
      else
        (⟨some (normTeam t), false, some (normTeam t)⟩, false)

/-! ## createTeam endpoint probing (services/teamService.js) -/

/-- The three payload shapes probed by `createTeam`:
`{name}`, `{team:{name}}`, `{title}`. -/
inductive Payload
  | pName
  | pTeamName
  | pTitle
deriving DecidableEq, Repr

/-- The response fields `createTeam` reads from a successful POST. -/
structure TeamResp where
  rid : Option String
  team_id : Option String
  data_id : Option String
  rname : Option String
  team_name : Option String
deriving DecidableEq, Repr

/-- Outcome of one POST attempt: a response, or a thrown error carrying an
optional HTTP `status` property (absent for non-HTTP failures). -/
inductive PostResult
  | ok (resp : TeamResp)
  | fail (status : Option Nat)
deriving DecidableEq, Repr

/-- Character map sending everything outside `[a-z0-9]` to a dash. -/
def dashify (c : Char) : Char :=
  if (('a' ≤ c ∧ c ≤ 'z') ∨ ('0' ≤ c ∧ c ≤ '9')) then c else '-'

/-- Collapses each run of consecutive dashes to a single dash. -/
def collapseDashes : List Char → List Char
  | [] => []
  | [c] => [c]
  | c1 :: c2 :: rest =>
    if c1 == '-' && c2 == '-' then collapseDashes (c2 :: rest)
    else c1 :: collapseDashes (c2 :: rest)

/-- Embedding of `slugify` (services/teamService.js): lowercase, trim, replace
non-alphanumeric runs by a single dash, strip leading/trailing dashes. -/
def slugify (s : String) : String :=
  let base := (jsTrim (jsToLower s)).toList.map dashify
  let collapsed := collapseDashes base
  let ltrimmed := collapsed.dropWhile (fun c => c == '-')
  String.mk (ltrimmed.reverse.dropWhile (fun c => c == '-')).reverse

/-- The created-team extraction `res?.id ?? res?.team_id ?? res?.data?.id ??
slugify(safeName)` and `res?.name ?? res?.team_name ?? safeName` (nullish
coalescing: empty strings do not fall through). -/
def teamFromResp (resp : TeamResp) (safeName : String) : Team :=
  ⟨(resp.rid <|> resp.team_id <|> resp.data_id).getD (slugify safeName),
   (resp.rname <|> resp.team_name).getD safeName⟩

/-- The guard `status && ![400, 404, 405].includes(Number(status))` deciding
whether a failed attempt aborts the probing. -/
def abortStatus : Option Nat → Bool
  | none => false
  | some n => !(n == 0) && !(n == 400 || n == 404 || n == 405)

/-- Result of scanning one grid of (path, payload) attempts in order. -/
inductive GridOut
  | success (t : Team)
  | abort (path : String) (st : Nat)
  | exhausted
deriving DecidableEq, Repr

/-- Runs (path, payload) attempts left to right: first response short-circuits
with the created team; the first failure whose status passes `abortStatus`
stops the grid; benign failures (400/404/405 or no status) continue. Returns
the attempts actually made and the outcome. -/
def tryGrid (post : String → Payload → PostResult) (safeName : String) :
    List (String × Payload) → List (String × Payload) × GridOut
  | [] => ([], .exhausted)
  | cell :: rest =>
    match post cell.1 cell.2 with
    | .ok resp => ([cell], .success (teamFromResp resp safeName))
    | .fail st =>
      if abortStatus st then ([cell], .abort cell.1 (st.getD 0))
      else
        let out := tryGrid post safeName rest
        (cell :: out.1, out.2)

/-- The primary probing grid: `POST /teams` with the three payload shapes. -/
def primaryCells : List (String × Payload) :=
  [("/teams", .pName), ("/teams", .pTeamName), ("/teams", .pTitle)]

/-- The alternate probing grid: each of `/teams/create`, `/team`, `/team/create`
with the three payload shapes, in source order. -/
def altCells : List (String × Payload) :=
  [("/teams/create", .pName), ("/teams/create", .pTeamName), ("/teams/create", .pTitle),
   ("/team", .pName), ("/team", .pTeamName), ("/team", .pTitle),
   ("/team/create", .pName), ("/team/create", .pTeamName), ("/team/create", .pTitle)]

/-- Embedding of `decorateTeamCreateError` (services/teamService.js), keyed by
the failing status and path; unknown statuses keep a generic message. -/
def decorateTeamCreateError (st : Nat) (pathTried : String) : String :=
  if st == 405 then
    "Method Not Allowed (405) for " ++ pathTried ++ ". The backend may require a different endpoint or method. Tried adapting automatically; please verify the correct path in backend docs."
  else if st == 404 then
    "Not Found (404) for " ++ pathTried ++ ". Verify the teams endpoint path relative to REACT_APP_API_BASE (avoid duplicate /api)."
  else if st == 400 then
    "Bad Request (400) for " ++ pathTried ++ ". The backend may expect a different payload shape (e.g., \x7b team: \x7b name \x7d \x7d or \x7b title \x7d)."
  else
    "Team creation failed with status " ++ toString st ++ " for " ++ pathTried ++ "."

/-- The environment a `createTeam` run probes: the POST oracle and the result
of `OPTIONS /teams` (`none` models a thrown OPTIONS request, `some allow` a
response whose `allow` header is the given string). -/
structure CreateEnv where
  post : String → Payload → PostResult
  opts : Option String

/-- Observable result of one `createTeam` run: the POST attempts made in order,
whether the OPTIONS-guided branch was entered, and the returned team or the
error that propagated to the caller. -/
structure CreateRun where
  attempts : List (String × Payload)
  usedOptionsBranch : Bool
  result : Except String Team

/-- Embedding of `createTeam` (services/teamService.js) for a configured
backend and non-blank name: probe `/teams` with the three payloads; on abort
throw the decorated error; on exhaustion consult `OPTIONS /teams` and, when it
answers with an `allow` header lacking `POST`, probe the alternates inside the
try block — where both the exhaustion throw and any abort throw are swallowed
by the surrounding catch — then probe the alternates once more outside it,
aborting with a decorated error or failing with the generic message. -/
def createTeamConfigured (env : CreateEnv) (safeName : String) : CreateRun :=
  let step1 := tryGrid env.post safeName primaryCells
  match step1.2 with
  | .success t => ⟨step1.1, false, .ok t⟩
  | .abort p st => ⟨step1.1, false, .error (decorateTeamCreateError st p)⟩
  | .exhausted =>
    let optionsBranch :=
      match env.opts with
      | none => false
      | some allow =>
        let allowU := jsToUpper allow
        !(allowU == "") && !(strHasSub allowU "POST")
    let step2 :=
      if optionsBranch then tryGrid env.post safeName altCells
      else ([], GridOut.exhausted)
    match step2.2 with
    | .success t => ⟨step1.1 ++ step2.1, optionsBranch, .ok t⟩
    | _ =>
      let step3 := tryGrid env.post safeName altCells
      match step3.2 with
      | .success t => ⟨step1.1 ++ step2.1 ++ step3.1, optionsBranch, .ok t⟩
      | .abort p st =>
        ⟨step1.1 ++ step2.1 ++ step3.1, optionsBranch, .error (decorateTeamCreateError st p)⟩
      | .exhausted =>
        ⟨step1.1 ++ step2.1 ++ step3.1, optionsBranch,
         .error "Failed to create team: backend rejected all known routes (tried /teams, /teams/create, /team). Ensure REACT_APP_API_BASE points to your backend (including /api if needed) and that the endpoint supports POST."⟩

/-! ## OAuth callback session establishment (pages/AuthCallback.jsx and the
code-exchanging finalize variant) -/

/-- An established session, abstracted to its token bundle identity. -/
def Session := String
deriving instance DecidableEq, Repr for Session

/-- `URLSearchParams.get`: first value for the key, else null. -/
def getParam (params : List (String × String)) (key : String) : Option String :=
  (params.find? (fun p => p.1 == key)).map (fun p => p.2)

/-- JS `String(x)` on a nullable string: `String(null) = "null"`. -/
def jsStringOf : Option String → String
  | none => "null"
  | some s => s

/-- The denial pattern `/access_denied|access-denied|denied|cancel/i` as a
case-insensitive substring test. -/
def deniedTest (e : String) : Bool :=
  strHasSub (jsToLower e) "access_denied" || strHasSub (jsToLower e) "access-denied" ||
    strHasSub (jsToLower e) "denied" || strHasSub (jsToLower e) "cancel"

/-- Observable actions of a callback run, in order: parameter parsing, URL
cleanup, identity-provider calls, and navigation. -/
inductive Act
  | parse
  | cleanup
  | exchange (url : String)
  | setTokens (access refresh : String)
  | getSession
  | subscribe
  | unsubscribe
  | navigate (target : String)
deriving DecidableEq, Repr

/-- Terminal states of the session-establishment machine. -/
inductive Terminal
  | confirmed
  | timedOut
  | denied
  | configMissing
deriving DecidableEq, Repr

/-- Message shown when the identity provider client is not configured. -/
def cfgMissingMsg : String :=
  "Supabase is not configured. Set REACT_APP_SUPABASE_URL and REACT_APP_SUPABASE_KEY."

/-- Message shown on an OAuth denial/cancellation. -/
def denialMsg : String :=
  "Access was denied or the sign-in was canceled. You can retry the login."

/-- The redirect-target resolution `search.get('redirect') ||
hash.get('redirect') || '/reports/new'`. -/
def redirectParamOf (search hash : List (String × String)) : String :=
  optStr (jsOrNull (jsOrNull (getParam search "redirect") (getParam hash "redirect"))
    (some "/reports/new"))

/-- The error-parameter resolution `search.get('error') || hash.get('error') || null`. -/
def oauthErrorOf (search hash : List (String × String)) : Option String :=
  jsOrNull (getParam search "error") (getParam hash "error")

/-- The `error_description` resolution from search then hash. -/
def oauthErrorDescOf (search hash : List (String × String)) : Option String :=
  jsOrNull (getParam search "error_description") (getParam hash "error_description")

/-- State threaded through the `waitForSession` race in pages/AuthCallback.jsx:
the `resolved` guard flag, the resolved value and time, and how many times the
auth-state-change subscription has been unsubscribed. -/
structure WfsState where
  resolved : Bool
  result : Option Session
  time : Option Nat
  unsubCount : Nat
deriving DecidableEq, Repr

/-- Initial race state: unresolved, nothing released. -/
def wfsInit : WfsState := ⟨false, none, none, 0⟩

/-- The `onAuthStateChange` callback of `waitForSession`: ignores events once
resolved; on the first session-bearing event it clears the timer, resolves
with the session, and the wrapped `resolve` releases the subscription. -/
def wfsEvent (st : WfsState) (e : Nat × Option Session) : WfsState :=
  if st.resolved then st
  else match e.2 with
    | some s => ⟨true, some s, some e.1, st.unsubCount + 1⟩
    | none => st

/-- The timeout callback of `waitForSession`: a no-op once resolved; otherwise
resolves with null, the wrapped `resolve` releasing the subscription. -/
def wfsTimeout (timeoutMs : Nat) (st : WfsState) : WfsState :=
  if st.resolved then st else ⟨true, none, some timeoutMs, st.unsubCount + 1⟩

/-- The subscribe-and-race phase of `waitForSession`: auth-state-change events
firing strictly before the timeout are delivered in order, then the timer
fires (it is cleared exactly when an event already resolved the race). -/
def wfsRace (events : List (Nat × Option Session)) (timeoutMs : Nat) : WfsState :=
  wfsTimeout timeoutMs
    ((events.filter (fun e => e.1 < timeoutMs)).foldl wfsEvent wfsInit)

/-- Observable output of one `waitForSession` call. -/
structure WfsOut where
  result : Option Session
  time : Option Nat
  subscribed : Bool
  unsubCount : Nat
deriving DecidableEq, Repr

/-- Embedding of `waitForSession` (pages/AuthCallback.jsx): without a client it
returns null; an immediately available session returns without subscribing;
otherwise it subscribes and races the auth-state-change stream against the
timeout. -/
def waitForSession (configured : Bool) (immediate : Option Session)
    (events : List (Nat × Option Session)) (timeoutMs : Nat) : WfsOut :=
  if !configured then ⟨none, none, false, 0⟩
  else match immediate with
    | some s => ⟨some s, some 0, false, 0⟩
    | none =>
      let f := wfsRace events timeoutMs
      ⟨f.result, f.time, true, f.unsubCount⟩

/-- The timeout budget hard-coded in `runCheck`: `waitForSession(12000)`. -/
def runCheckTimeoutMs : Nat := 12000

/-- Environment of one `runCheck` run of pages/AuthCallback.jsx. -/
structure RunCheckEnv where
  configured : Bool
  search : List (String × String)
  hash : List (String × String)
  immediate : Option Session
  events : List (Nat × Option Session)

/-- Observable outcome of one `runCheck` run. -/
structure RunCheckRun where
  terminal : Terminal
  msg : Option String
  trace : List Act
  resolveTime : Option Nat
deriving DecidableEq, Repr

/-- Embedding of `runCheck` (pages/AuthCallback.jsx): parameters are parsed at
render, before the effect body runs. A missing client terminates immediately
(without URL cleanup); a denial-matching error parameter cleans the URL and
terminates as denied; otherwise the URL is cleaned once and `waitForSession`
decides between confirmed and timed out. -/
def runCheck (env : RunCheckEnv) : RunCheckRun :=
  let oauthError := oauthErrorOf env.search env.hash
  let oauthErrorDesc := oauthErrorDescOf env.search env.hash
  if !env.configured then
    ⟨.configMissing, some cfgMissingMsg, [.parse], none⟩
  else if (truthy oauthError || truthy oauthErrorDesc) && deniedTest (jsStringOf oauthError) then
    ⟨.denied, some denialMsg, [.parse, .cleanup], none⟩
  else
    let w := waitForSession true env.immediate env.events runCheckTimeoutMs
    let wTrace :=
      [Act.getSession] ++
        (if w.subscribed then Act.subscribe :: List.replicate w.unsubCount Act.unsubscribe else [])
    match w.result with
    | some _ => ⟨.confirmed, none, [Act.parse, Act.cleanup] ++ wTrace, w.time⟩
    | none =>
      let m :=
        if truthy oauthError || truthy oauthErrorDesc then
          "We could not complete the sign-in: " ++ optStr (jsOrNull oauthErrorDesc oauthError) ++ "."
        else "We could not confirm your session yet. You can retry or check configuration."
      ⟨.timedOut, some m, [Act.parse, Act.cleanup] ++ wTrace, w.time⟩

/-- The timeout budget hard-coded in the code-exchanging finalize variant. -/
def finalizeTimeoutMs : Nat := 12000

/-- Whether the finalize run sees an authorization code: `search.get('code')`
is a non-empty string (the code is read from the query only). -/
def hasCodeOf (search : List (String × String)) : Bool :=
  truthy (getParam search "code")

/-- Whether the finalize run takes the denial branch:
`oauthError && /access_denied|access-denied|denied|cancel/i.test(oauthError)`. -/
def deniedErrOf (search hash : List (String × String)) : Bool :=
  truthy (oauthErrorOf search hash) && deniedTest (optStr (oauthErrorOf search hash))

/-- Environment of one run of the code-exchanging `finalize` effect: the parsed
parameter sources, the full current URL, whether code exchange and token
setting fail (`some message`) or succeed (`none`), the `getSession` result, and
the first session-bearing auth-state-change event (time in ms), if any. -/
structure FinalizeEnv where
  configured : Bool
  search : List (String × String)
  hash : List (String × String)
  currentUrl : String
  exchangeFail : Option String
  setTokensFail : Option String
  sessionNow : Option Session
  arrival : Option (Nat × Session)

/-- Observable outcome of one `finalize` run. -/
structure FinalizeRun where
  trace : List Act
  terminal : Terminal
  msg : Option String
deriving DecidableEq, Repr

/-- Embedding of the code-exchanging `finalize` effect (the AuthCallback
variant with PKCE support): config check, then denial check, then code
exchange with the full current URL (or implicit token setting), each failure
recorded softly; then `getSession`, and if no session yet a subscription raced
against the 12s timer. The unsubscribing cleanup closure is returned from the
async function and discarded at the call site, so no run ever performs an
`unsubscribe` action. -/
def finalizeRun (env : FinalizeEnv) : FinalizeRun :=
  if !env.configured then ⟨[.parse], .configMissing, some cfgMissingMsg⟩
  else
    let oauthError := oauthErrorOf env.search env.hash
    let oauthErrorDesc := oauthErrorDescOf env.search env.hash
    if truthy oauthError && deniedTest (optStr oauthError) then
      ⟨[.parse, .cleanup], .denied, some denialMsg⟩
    else
      let redirectParam := redirectParamOf env.search env.hash
      let code := getParam env.search "code"
      let tokenA := jsOrNull (getParam env.hash "access_token") none
      let tokenR := jsOrNull (getParam env.hash "refresh_token") none
      let attemptTrace :=
        if truthy code then [Act.exchange env.currentUrl]
        else if truthy tokenA && truthy tokenR then
          [Act.setTokens (optStr tokenA) (optStr tokenR)]
        else []
      let softErr :=
        if truthy code then env.exchangeFail
        else if truthy tokenA && truthy tokenR then env.setTokensFail
        else none
      let base := [Act.parse] ++ attemptTrace ++ [Act.getSession]
      let timeoutMsg :=
        if truthy oauthError || truthy oauthErrorDesc then
          "We could not complete the sign-in: " ++ optStr (jsOrNull oauthErrorDesc oauthError) ++
            ". Please try again."
        else "We could not complete the sign-in. Please try again or contact support."
      let timedOutRun : FinalizeRun :=
        ⟨base ++ [Act.subscribe, Act.cleanup], .timedOut, some timeoutMsg⟩
      match env.sessionNow with
      | some _ => ⟨base ++ [Act.cleanup, Act.navigate redirectParam], .confirmed, softErr⟩
      | none =>
        match env.arrival with
        | some (t, _) =>
          if t < finalizeTimeoutMs then
            ⟨base ++ [Act.subscribe, Act.cleanup, Act.navigate redirectParam], .confirmed, softErr⟩
          else timedOutRun
        | none => timedOutRun

/-! ## Concrete instances used by counterexamples and witnesses -/

/-- User with no role metadata and email `a@x.com` (spec scenario §8). -/
def userPlain : User :=
  ⟨some "u1", some "a@x.com", none, [], none, [], none, none, none⟩

/-- User whose `app_metadata.role` is the valid string `admin`. -/
def userAppAdmin : User :=
  ⟨some "u2", some "u@x.com", some "admin", [], none, [], none, none, none⟩

/-- User with an invalid truthy `app_metadata.role` and a valid
`user_metadata.role`. -/
def userShadowed : User :=
  ⟨some "u3", some "u@x.com", some "guest", [], some "admin", [], none, none, none⟩

/-- A profile row carrying the valid role `manager` and no team. -/
def profileManagerRow : ProfileOutcome := .row ⟨some "manager", none, none⟩

/-- POST oracle for the createTeam counterexample: `/teams` always answers 404,
`/teams/create` with the `{name}` payload answers 500, everything else 404. -/
def postC9 : String → Payload → PostResult := fun p b =>
  if p == "/teams" then .fail (some 404)
  else if p == "/teams/create" && (b == Payload.pName) then .fail (some 500)
  else .fail (some 404)

/-- createTeam environment whose OPTIONS probe reports an allow header without
POST, steering the run into the OPTIONS-guided alternate probing. -/
def envC9 : CreateEnv := ⟨postC9, some "GET, HEAD"⟩

/-- A finalize environment: configured client, authorization code in the
query, successful exchange, no immediate session, and a session-bearing
auth event at 1000 ms. -/
def envFinalizeCode : FinalizeEnv :=
  ⟨true, [("code", "abc")], [], "https://app/auth/callback?code=abc",
   none, none, none, some (1000, "sess")⟩

/-- A finalize environment: configured client, code in the query, failing
exchange, no immediate session, session-bearing auth event at 1000 ms. -/
def envFinalizeSoftFail : FinalizeEnv :=
  ⟨true, [("code", "abc")], [], "https://app/auth/callback?code=abc",
   some "exchange failed", none, none, some (1000, "sess")⟩

/-- A finalize environment whose query carries `error=access_denied`. -/
def envFinalizeDenied : FinalizeEnv :=
  ⟨true, [("error", "access_denied"), ("error_description", "User denied access")], [],
   "https://app/auth/callback", none, none, none, none⟩

/-- A runCheck environment with nothing in the URL and a silent provider. -/
def envRunCheckSilent : RunCheckEnv := ⟨true, [], [], none, []⟩

/-- A runCheck environment with a session-bearing auth event at 100 ms. -/
def envRunCheckEvent : RunCheckEnv := ⟨true, [], [], none, [(100, some "sess")]⟩

/-- A runCheck environment without a configured identity provider client. -/
def envRunCheckNoConfig : RunCheckEnv := ⟨false, [("error", "access_denied")], [], none, []⟩

/-- A team selection input with id `t1` and name `Alpha`. -/
def teamSelAlpha : TeamSel := ⟨some "t1", some "Alpha"⟩

/-- A pre-existing team state with a stale cached selection. -/
def stStale : AuthTeamState := ⟨none, false, some ⟨"old", "Old"⟩⟩

/-- A successful team-creation response carrying id `7` and name `Growth`. -/
def respW : TeamResp := ⟨some "7", none, none, some "Growth", none⟩

/-- A POST oracle that always succeeds with `respW`. -/
def postOkW : String → Payload → PostResult := fun _ _ => PostResult.ok respW

/-- A createTeam environment whose every POST fails with HTTP 500 and whose
OPTIONS probe throws. -/
def envAbortW : CreateEnv := ⟨fun _ _ => PostResult.fail (some 500), none⟩

/-! ## Helper lemmas -/

/-- The race-state invariant: the subscription has been released exactly once
if the race is resolved, never before. -/
def WfsInv (st : WfsState) : Prop :=
  st.unsubCount = if st.resolved then 1 else 0

theorem wfsEvent_inv {st : WfsState} (h : WfsInv st) (e : Nat × Option Session) :
    WfsInv (wfsEvent st e) := by
  unfold WfsInv at h ⊢
  unfold wfsEvent
  split
  · simp_all
  · split <;> simp_all

theorem wfsEvent_foldl_inv {st : WfsState} (h : WfsInv st) :
    ∀ l : List (Nat × Option Session), WfsInv (l.foldl wfsEvent st) := by
  intro l
  induction l generalizing st with
  | nil => exact h
  | cons e rest ih => exact ih (wfsEvent_inv h e)

theorem wfsTimeout_resolved (timeoutMs : Nat) (st : WfsState) :
    (wfsTimeout timeoutMs st).resolved = true := by
  unfold wfsTimeout
  split <;> simp_all

theorem wfsTimeout_inv {st : WfsState} (h : WfsInv st) (timeoutMs : Nat) :
    WfsInv (wfsTimeout timeoutMs st) := by
  unfold WfsInv at h ⊢
  unfold wfsTimeout
  split <;> simp_all

/-- Every run of the subscribe-and-race phase releases the subscription
exactly once, whichever side of the race wins. -/
theorem wfsRace_unsub_once (events : List (Nat × Option Session)) (timeoutMs : Nat) :
    (wfsRace events timeoutMs).unsubCount = 1 := by
  unfold wfsRace
  have hinv : WfsInv ((events.filter (fun e => e.1 < timeoutMs)).foldl wfsEvent wfsInit) :=
    wfsEvent_foldl_inv (by simp [WfsInv, wfsInit]) _
  have h2 := wfsTimeout_inv hinv timeoutMs
  unfold WfsInv at h2
  rw [h2, wfsTimeout_resolved]
  simp

/-- An auth event without a session never changes the race state. -/
theorem wfsEvent_none (st : WfsState) (t : Nat) : wfsEvent st (t, none) = st := by
  unfold wfsEvent
  split <;> rfl

/-- A stream that never delivers a session leaves the race to the timer. -/
theorem wfsRace_no_session (events : List (Nat × Option Session)) (timeoutMs : Nat)
    (h : ∀ e ∈ events, e.2 = none) :
    wfsRace events timeoutMs = ⟨true, none, some timeoutMs, 1⟩ := by
  unfold wfsRace
  have hfold : (events.filter (fun e => e.1 < timeoutMs)).foldl wfsEvent wfsInit = wfsInit := by
    have hf : ∀ e ∈ events.filter (fun e => e.1 < timeoutMs), e.2 = none := by
      intro e he
      exact h e (List.mem_of_mem_filter he)
    generalize hl : events.filter (fun e => e.1 < timeoutMs) = l at hf
    clear hl
    induction l with
    | nil => rfl
    | cons e rest ih =>
      have he : e.2 = none := hf e (List.mem_cons_self e rest)
      have : wfsEvent wfsInit e = wfsInit := by
        obtain ⟨t, p⟩ := e
        simp only at he
        rw [he]
        exact wfsEvent_none wfsInit t
      rw [List.foldl_cons, this]
      exact ih (fun x hx => hf x (List.mem_cons_of_mem e hx))
  rw [hfold]
  rfl

/-- Every attempt recorded by `tryGrid` comes from its input grid. -/
theorem tryGrid_attempts_subset (post : String → Payload → PostResult) (safeName : String) :
    ∀ (cells : List (String × Payload)), ∀ c ∈ (tryGrid post safeName cells).1, c ∈ cells := by
  intro cells
  induction cells with
  | nil => intro c hc; simp [tryGrid] at hc
  | cons cell rest ih =>
    intro c hc
    unfold tryGrid at hc
    rcases hpost : post cell.1 cell.2 with resp | st
    · rw [hpost] at hc
      simp at hc
      simp [hc]
    · rw [hpost] at hc
      by_cases hab : abortStatus st = true
      · simp [hab] at hc
        simp [hc]
      · simp [Bool.not_eq_true] at hab
        simp [hab] at hc
        rcases hc with hc | hc
        · simp [hc]
        · exact List.mem_cons_of_mem _ (ih c hc)

/-- Exhaustion of a grid means every cell failed with a benign status
(400/404/405 or no HTTP status at all). -/
theorem tryGrid_exhausted_benign (post : String → Payload → PostResult) (safeName : String) :
    ∀ (cells : List (String × Payload)), (tryGrid post safeName cells).2 = GridOut.exhausted →
      ∀ c ∈ cells, ∃ st, post c.1 c.2 = PostResult.fail st ∧ abortStatus st = false := by
  intro cells
  induction cells with
  | nil => intro _ c hc; simp at hc
  | cons cell rest ih =>
    intro hex c hc
    unfold tryGrid at hex
    rcases hpost : post cell.1 cell.2 with resp | st
    · rw [hpost] at hex; simp at hex
    · rw [hpost] at hex
      by_cases hab : abortStatus st = true
      · simp [hab] at hex
      · simp [Bool.not_eq_true] at hab
        simp [hab] at hex
        rcases List.mem_cons.mp hc with hc | hc
        · exact ⟨st, by rw [hc]; exact hpost, hab⟩
        · exact ih hex c hc

/-- Every cell of the primary grid posts to `/teams`. -/
theorem primaryCells_path (c : String × Payload) (hc : c ∈ primaryCells) : c.1 = "/teams" := by
  simp only [primaryCells, List.mem_cons, List.not_mem_nil, or_false] at hc
  rcases hc with h | h | h <;> rw [h]

/-- A replicated list of one element contains no occurrences of another. -/
theorem count_replicate_ne {α : Type} [DecidableEq α] (a b : α) (h : a ≠ b) (n : Nat) :
    (List.replicate n b).count a = 0 := by
  induction n with
  | zero => rfl
  | succ k ih => simp [List.replicate_succ, List.count_cons, ih, h]

/-- A truthy first operand wins the `||` chain. -/
theorem jsOrNull_truthy {a : Option String} (h : truthy a = true) (b : Option String) :
    jsOrNull a b = a := by
  unfold jsOrNull
  simp [h]

/-- The role component of a pipeline run on a present user: the profile role
overrides the derived role exactly when it is truthy and different. -/
theorem resolvePipeline_role_some (u : User) (profile : ProfileOutcome) (cache : Option Team) :
    (resolvePipeline (some u) profile cache).role =
      (if truthy (loadRoleFromProfiles profile).role &&
          decide ((loadRoleFromProfiles profile).role ≠ deriveRoleFromUser (some u))
       then (loadRoleFromProfiles profile).role
       else deriveRoleFromUser (some u)) := by
  simp only [resolvePipeline]
  split
  · rfl
  · split <;> rfl

/-- A thrown backend write leaves `setUserTeam` with no result record. -/
theorem setUserTeam_throws (id : String) :
    setUserTeam true PostOutcome.throws id = none := by
  unfold setUserTeam
  split <;> simp

/-- A write whose response reports failure yields either the blank-id throw or
an unsuccessful record. -/
theorem setUserTeam_ok_false (id : String) :
    setUserTeam true (PostOutcome.ok false) id = none ∨
      setUserTeam true (PostOutcome.ok false) id = some (true, false) := by
  unfold setUserTeam
  split
  · exact Or.inl rfl
  · right
    simp

/-! ## Claim theorems -/

/-- C8: for the user with empty app and user metadata and email `a@x.com`,
with the profile source unreachable and an empty local cache, the pipeline
resolves `Role = employee`, `Team = null`, `teamPersisted = false`. -/
theorem c8_default_resolution :
    resolvePipeline (some userPlain) ProfileOutcome.unreachable none =
      ⟨some "employee", none, false⟩ := by
  decide

/-- C1 counterexample: with `app_metadata.role = "admin"` (a valid role) and a
reachable profile row carrying `manager`, the pipeline resolves `manager`, not
the claimed `admin`; and with an invalid truthy `app_metadata.role = "guest"`
shadowing `user_metadata.role = "admin"`, derivation skips user_metadata and
falls to the email heuristic, yielding `employee` instead of the claimed
`admin`. -/
theorem c1_role_priority_cex :
    (resolvePipeline (some userAppAdmin) profileManagerRow none).role = some "manager" ∧
    (resolvePipeline (some userAppAdmin) profileManagerRow none).role ≠ some "admin" ∧
    deriveRoleFromUser (some userShadowed) = some "employee" := by
  refine ⟨by decide, by decide, by decide⟩

/-- C1 amended: the first truthy entry among `app_metadata.role`,
`app_metadata.roles[0]`, `user_metadata.role`, `user_metadata.roles[0]` is
validated after lowercasing and trimming; a truthy-but-invalid app role
shadows user_metadata and falls to the email heuristic; and a valid reachable
profile role overrides the metadata-derived role. In particular, whenever
`app_metadata.role` is itself valid and the profile lookup yields no valid
role, the pipeline resolves exactly that value. -/
theorem c1_app_metadata_role_priority (u : User) (profile : ProfileOutcome) (cache : Option Team)
    (hvalid : validRoleStr (jsTrim (jsToLower (optStr u.app_metadata_role))) = true)
    (hprofile : (loadRoleFromProfiles profile).role = none) :
    (resolvePipeline (some u) profile cache).role =
      some (jsTrim (jsToLower (optStr u.app_metadata_role))) := by
  rcases ha : u.app_metadata_role with _ | s
  · rw [ha] at hvalid
    exact absurd hvalid (by decide)
  · by_cases hs : s = ""
    · subst hs
      rw [ha] at hvalid
      exact absurd hvalid (by decide)
    · have htr : truthy (some s) = true := by simp [truthy, hs]
      rw [ha] at hvalid
      simp only [optStr] at hvalid
      have hderive : deriveRoleFromUser (some u) = some (jsTrim (jsToLower s)) := by
        simp only [deriveRoleFromUser]
        rw [ha, jsOrNull_truthy htr, jsOrNull_truthy htr]
        simp only [optStr]
        simp [hvalid]
      rw [resolvePipeline_role_some, hprofile]
      simp only [optStr]
      simp [truthy, hderive]

/-- C1 amended witness at a concrete input: `app_metadata.role = "admin"`,
unreachable profile, empty cache. -/
theorem c1_app_metadata_role_priority_witness :
    validRoleStr (jsTrim (jsToLower (optStr userAppAdmin.app_metadata_role))) = true ∧
    (loadRoleFromProfiles ProfileOutcome.unreachable).role = none ∧
    (resolvePipeline (some userAppAdmin) ProfileOutcome.unreachable none).role =
      some (jsTrim (jsToLower (optStr userAppAdmin.app_metadata_role))) :=
  ⟨by decide, by decide,
   c1_app_metadata_role_priority userAppAdmin ProfileOutcome.unreachable none
     (by decide) (by decide)⟩

/-- C7: with the backend configured and the team-assignment write reporting
success, `setTeamSelection` sets the current team, reports
`teamPersisted = true`, clears the browser-local cached selection (so
subsequent pipeline runs read an empty cache), and returns `persisted = true`. -/
theorem c7_team_switch_persists_and_clears_cache (post : PostOutcome) (st : AuthTeamState)
    (t : TeamSel) (hid : truthy t.id = true)
    (hw : setUserTeam true post (optStr t.id) = some (true, true)) :
    setTeamSelection true post st (some t) = (⟨some (normTeam t), true, none⟩, true) := by
  unfold setTeamSelection
  simp [hid, hw]

/-- C7 witness: team `t1/Alpha`, successful POST, stale prior cache. -/
theorem c7_team_switch_witness :
    truthy teamSelAlpha.id = true ∧
    setUserTeam true (PostOutcome.ok true) (optStr teamSelAlpha.id) = some (true, true) ∧
    setTeamSelection true (PostOutcome.ok true) stStale (some teamSelAlpha) =
      (⟨some (normTeam teamSelAlpha), true, none⟩, true) :=
  ⟨by decide, by decide,
   c7_team_switch_persists_and_clears_cache (PostOutcome.ok true) stStale teamSelAlpha
     (by decide) (by decide)⟩

/-- C10: whenever the backend write is unavailable, throws, or reports
failure, `setTeamSelection` does not propagate an exception: it sets the
in-memory team to the normalised value, reports `teamPersisted = false`,
stores the value in the browser-local cache and returns `persisted = false`;
and a missing or falsy id returns `persisted = false` leaving the state (and
cache) unchanged. -/
theorem c10_team_switch_fallback :
    (∀ (post : PostOutcome) (st : AuthTeamState) (t : TeamSel), truthy t.id = true →
        (post = PostOutcome.throws ∨ post = PostOutcome.ok false) →
        setTeamSelection true post st (some t) =
          (⟨some (normTeam t), false, some (normTeam t)⟩, false)) ∧
    (∀ (post : PostOutcome) (st : AuthTeamState) (t : TeamSel), truthy t.id = true →
        setTeamSelection false post st (some t) =
          (⟨some (normTeam t), false, some (normTeam t)⟩, false)) ∧
    (∀ (available : Bool) (post : PostOutcome) (st : AuthTeamState) (t : TeamSel),
        truthy t.id = false →
        setTeamSelection available post st (some t) = (st, false)) ∧
    (∀ (available : Bool) (post : PostOutcome) (st : AuthTeamState),
        setTeamSelection available post st none = (st, false)) := by
  refine ⟨?_, ?_, ?_, ?_⟩
  · intro post st t hid hpost
    unfold setTeamSelection
    rcases hpost with h | h <;> subst h
    · simp [hid, setUserTeam_throws]
    · rcases setUserTeam_ok_false (optStr t.id) with h2 | h2 <;> simp [hid, h2]
  · intro post st t hid
    simp [setTeamSelection, hid]
  · intro available post st t hid
    simp [setTeamSelection, hid]
  · intro available post st
    rfl

/-- C10 witness: the thrown-write, unavailable-backend, falsy-id and missing
team cases at concrete inputs. -/
theorem c10_team_switch_fallback_witness :
    truthy teamSelAlpha.id = true ∧
    setTeamSelection true PostOutcome.throws stStale (some teamSelAlpha) =
      (⟨some (normTeam teamSelAlpha), false, some (normTeam teamSelAlpha)⟩, false) ∧
    setTeamSelection false (PostOutcome.ok true) stStale (some teamSelAlpha) =
      (⟨some (normTeam teamSelAlpha), false, some (normTeam teamSelAlpha)⟩, false) ∧
    setTeamSelection true (PostOutcome.ok true) stStale (some ⟨none, some "X"⟩) =
      (stStale, false) ∧
    setTeamSelection true (PostOutcome.ok true) stStale none = (stStale, false) :=
  ⟨by decide,
   c10_team_switch_fallback.1 PostOutcome.throws stStale teamSelAlpha (by decide) (Or.inl rfl),
   c10_team_switch_fallback.2.1 (PostOutcome.ok true) stStale teamSelAlpha (by decide),
   c10_team_switch_fallback.2.2.1 true (PostOutcome.ok true) stStale ⟨none, some "X"⟩ (by decide),
   c10_team_switch_fallback.2.2.2 true (PostOutcome.ok true) stStale⟩

/-- C2: a configured run whose parsed outcome carries an authorization code and
no denial error invokes code exchange with the full current URL; when the
exchange fails (soft error), the run still proceeds to `getSession` and, if no
session is returned, to the auth-state-change subscription, so a session
available immediately or arriving before the timeout still yields CONFIRMED. -/
theorem c2_code_exchange_soft_failure (env : FinalizeEnv)
    (hconf : env.configured = true)
    (hcode : hasCodeOf env.search = true)
    (hden : deniedErrOf env.search env.hash = false) :
    Act.exchange env.currentUrl ∈ (finalizeRun env).trace ∧
    (∀ m, env.exchangeFail = some m →
      Act.getSession ∈ (finalizeRun env).trace ∧
      (env.sessionNow = none → Act.subscribe ∈ (finalizeRun env).trace) ∧
      (∀ s, env.sessionNow = some s → (finalizeRun env).terminal = Terminal.confirmed) ∧
      (∀ t s, env.sessionNow = none → env.arrival = some (t, s) → t < finalizeTimeoutMs →
        (finalizeRun env).terminal = Terminal.confirmed)) := by
  simp only [hasCodeOf] at hcode
  simp only [deniedErrOf] at hden
  simp only [finalizeRun, hconf, hden, hcode, Bool.not_true, Bool.false_eq_true, if_false,
    ite_true, ite_false, if_true]
  refine ⟨?_, fun m hm => ⟨?_, fun hs0 => ?_, fun s hs0 => ?_, fun t s hs0 har hlt => ?_⟩⟩
  · rcases env.sessionNow with _ | s0
    · rcases env.arrival with _ | ⟨t0, s1⟩
      · simp
      · by_cases hlt0 : t0 < finalizeTimeoutMs <;> simp [hlt0]
    · simp
  · rcases env.sessionNow with _ | s0
    · rcases env.arrival with _ | ⟨t0, s1⟩
      · simp
      · by_cases hlt0 : t0 < finalizeTimeoutMs <;> simp [hlt0]
    · simp
  · rw [hs0]
    rcases env.arrival with _ | ⟨t0, s1⟩
    · simp
    · by_cases hlt0 : t0 < finalizeTimeoutMs <;> simp [hlt0]
  · rw [hs0]
  · rw [hs0, har]
    simp [hlt]

/-- C2 witness: code `abc`, failing exchange, no immediate session, and a
session event at 1000 ms still confirm the run. -/
theorem c2_code_exchange_witness :
    hasCodeOf envFinalizeSoftFail.search = true ∧
    deniedErrOf envFinalizeSoftFail.search envFinalizeSoftFail.hash = false ∧
    Act.exchange envFinalizeSoftFail.currentUrl ∈ (finalizeRun envFinalizeSoftFail).trace ∧
    (finalizeRun envFinalizeSoftFail).terminal = Terminal.confirmed := by
  have h := c2_code_exchange_soft_failure envFinalizeSoftFail rfl (by decide) (by decide)
  exact ⟨by decide, by decide, h.1,
    (h.2 "exchange failed" rfl).2.2.2 1000 "sess" rfl rfl (by decide)⟩

/-- C3: a configured run whose error parameter matches the denial pattern
terminates as DENIED with the denial message, its whole trace being parse and
URL cleanup — in particular with no code-exchange and no token-set call. -/
theorem c3_denial_short_circuit (env : FinalizeEnv)
    (hconf : env.configured = true)
    (hden : deniedErrOf env.search env.hash = true) :
    (finalizeRun env).terminal = Terminal.denied ∧
    (finalizeRun env).trace = [Act.parse, Act.cleanup] ∧
    (∀ u, Act.exchange u ∉ (finalizeRun env).trace) ∧
    (∀ a r, Act.setTokens a r ∉ (finalizeRun env).trace) ∧
    (finalizeRun env).msg = some denialMsg := by
  simp only [deniedErrOf] at hden
  simp only [finalizeRun, hconf, hden, Bool.not_true, Bool.false_eq_true, if_false, if_true,
    ite_true, ite_false]
  simp

/-- C3 witness: `error=access_denied` with a description reaches DENIED and
reports the denial message. -/
theorem c3_denial_witness :
    deniedErrOf envFinalizeDenied.search envFinalizeDenied.hash = true ∧
    (finalizeRun envFinalizeDenied).terminal = Terminal.denied ∧
    (finalizeRun envFinalizeDenied).msg = some denialMsg := by
  have h := c3_denial_short_circuit envFinalizeDenied rfl (by decide)
  exact ⟨by decide, h.1, h.2.2.2.2⟩

/-- C4 counterexample: in the code-exchanging finalize variant, a run that
exchanges a valid code, gets no immediate session, subscribes, and receives a
session event reaches CONFIRMED with zero unsubscriptions — the unsubscribing
cleanup closure is returned from the async function and discarded, so the
claimed exactly-once release does not hold on this run. -/
theorem c4_finalize_zero_unsubscribe_cex :
    (finalizeRun envFinalizeCode).terminal = Terminal.confirmed ∧
    Act.subscribe ∈ (finalizeRun envFinalizeCode).trace ∧
    Act.exchange envFinalizeCode.currentUrl ∈ (finalizeRun envFinalizeCode).trace ∧
    Act.unsubscribe ∉ (finalizeRun envFinalizeCode).trace := by
  decide

/-- C4 amended: in the current AuthCallback page, every `waitForSession` run
that subscribes (no immediate session) releases the subscription exactly once
whichever side of the race wins; in particular a run whose auth stream
delivers a session before the timeout reaches CONFIRMED with exactly one
unsubscription. The code-exchanging variant never releases its subscription
within a run. -/
theorem c4_wait_for_session_unsubscribes_once :
    (∀ (events : List (Nat × Option Session)) (timeoutMs : Nat),
        (waitForSession true none events timeoutMs).unsubCount = 1) ∧
    (∀ (env : RunCheckEnv) (t : Nat) (s : Session), env.configured = true →
        ((truthy (oauthErrorOf env.search env.hash) ||
            truthy (oauthErrorDescOf env.search env.hash)) &&
          deniedTest (jsStringOf (oauthErrorOf env.search env.hash))) = false →
        env.immediate = none → env.events = [(t, some s)] → t < runCheckTimeoutMs →
        (runCheck env).terminal = Terminal.confirmed ∧
        (runCheck env).trace.count Act.unsubscribe = 1) := by
  constructor
  · intro events timeoutMs
    simp only [waitForSession, Bool.not_true, Bool.false_eq_true, if_false]
    exact wfsRace_unsub_once events timeoutMs
  · intro env t s hconf hden him hev hlt
    have hrace : wfsRace env.events runCheckTimeoutMs = ⟨true, some s, some t, 1⟩ := by
      rw [hev]
      unfold wfsRace
      simp [hlt, wfsEvent, wfsInit, wfsTimeout]
    simp only [runCheck, hconf, hden, Bool.not_true, Bool.false_eq_true, if_false, if_true,
      ite_true, ite_false]
    simp only [waitForSession, him, hrace]
    simp

/-- C4 amended witness: an empty stream with a 5 s budget still releases once;
a session event at 100 ms confirms with exactly one release. -/
theorem c4_unsubscribe_once_witness :
    (waitForSession true none [] 5000).unsubCount = 1 ∧
    (runCheck envRunCheckEvent).terminal = Terminal.confirmed ∧
    (runCheck envRunCheckEvent).trace.count Act.unsubscribe = 1 := by
  have h2 := c4_wait_for_session_unsubscribes_once.2 envRunCheckEvent 100 "sess" rfl (by decide)
    rfl rfl (by decide)
  exact ⟨c4_wait_for_session_unsubscribes_once.1 [] 5000, h2.1, h2.2⟩

/-- C5 counterexample: a run without a configured identity provider client
enters the CONFIG_MISSING terminal state without any URL cleanup, refuting
the claim that the URL is rewritten on every transition into a terminal
state. -/
theorem c5_config_missing_no_cleanup_cex :
    (runCheck envRunCheckNoConfig).terminal = Terminal.configMissing ∧
    Act.cleanup ∉ (runCheck envRunCheckNoConfig).trace := by
  decide

/-- C5 amended: parsing always precedes everything else; a configured run
cleans the URL exactly once (on the denial branch, or before the waiting
phase and hence before CONFIRMED/TIMED_OUT), never before parsing; a run
without a configured client terminates as CONFIG_MISSING with no cleanup. -/
theorem c5_cleanup_once_after_parse (env : RunCheckEnv) :
    ((runCheck env).trace.head? = some Act.parse) ∧
    (env.configured = true → (runCheck env).trace.count Act.cleanup = 1) ∧
    (env.configured = false → (runCheck env).terminal = Terminal.configMissing ∧
      (runCheck env).trace.count Act.cleanup = 0) := by
  refine ⟨?_, fun hc => ?_, fun hc => ?_⟩
  · simp only [runCheck]
    split
    · rfl
    · split
      · rfl
      · split <;> rfl
  · simp only [runCheck, hc, Bool.not_true, Bool.false_eq_true, if_false]
    split
    · simp
    · split <;>
      · by_cases hsub :
            (waitForSession true env.immediate env.events runCheckTimeoutMs).subscribed <;>
          simp [hsub, List.count_append, List.count_cons,
            count_replicate_ne Act.cleanup Act.unsubscribe (by decide)]
  · simp [runCheck, hc]

/-- C5 amended witness: a configured silent run cleans exactly once; an
unconfigured run reaches CONFIG_MISSING with no cleanup. -/
theorem c5_cleanup_once_witness :
    (runCheck envRunCheckSilent).trace.count Act.cleanup = 1 ∧
    (runCheck envRunCheckNoConfig).terminal = Terminal.configMissing ∧
    (runCheck envRunCheckNoConfig).trace.count Act.cleanup = 0 :=
  ⟨(c5_cleanup_once_after_parse envRunCheckSilent).2.1 rfl,
   ((c5_cleanup_once_after_parse envRunCheckNoConfig).2.2 rfl).1,
   ((c5_cleanup_once_after_parse envRunCheckNoConfig).2.2 rfl).2⟩

/-- C6: with no authorization code, no implicit tokens, no error parameters, a
`getSession` that returns null and an auth stream that never delivers a
session, the run reaches TIMED_OUT exactly when the 12000 ms budget elapses
(within the specified 8-12 s range) and at no earlier time. -/
theorem c6_timeout_budget (env : RunCheckEnv)
    (hconf : env.configured = true)
    (herr : truthy (oauthErrorOf env.search env.hash) = false)
    (hdesc : truthy (oauthErrorDescOf env.search env.hash) = false)
    (_hnocode : truthy (getParam env.search "code") = false)
    (_hnotok : truthy (getParam env.hash "access_token") = false)
    (him : env.immediate = none)
    (hsilent : ∀ e ∈ env.events, e.2 = none) :
    (runCheck env).terminal = Terminal.timedOut ∧
    (runCheck env).resolveTime = some runCheckTimeoutMs ∧
    (∀ t, (runCheck env).resolveTime = some t → ¬t < runCheckTimeoutMs) ∧
    8000 ≤ runCheckTimeoutMs ∧ runCheckTimeoutMs ≤ 12000 := by
  have hrace := wfsRace_no_session env.events runCheckTimeoutMs hsilent
  simp only [runCheck, hconf, herr, hdesc, Bool.not_true, Bool.false_eq_true, if_false,
    Bool.false_or, Bool.or_self, Bool.false_and, ite_false, if_true, ite_true]
  simp only [waitForSession, him, hrace]
  simp [runCheckTimeoutMs]

/-- C6 witness: the empty-URL silent environment times out at 12000 ms. -/
theorem c6_timeout_budget_witness :
    (runCheck envRunCheckSilent).terminal = Terminal.timedOut ∧
    (runCheck envRunCheckSilent).resolveTime = some runCheckTimeoutMs := by
  have h := c6_timeout_budget envRunCheckSilent rfl (by decide) (by decide) (by decide)
    (by decide) rfl (by decide)
  exact ⟨h.1, h.2.1⟩

/-- C9 counterexample: with `/teams` answering 404, an OPTIONS response whose
allow header lacks POST, and `/teams/create` with payload `{name}` answering
500, the run attempts that failing cell, swallows its decorated abort in the
catch around the OPTIONS-guided branch, attempts it again in the final loop,
and only then propagates the error — so an attempt failing with a
non-400/404/405 status does not abort the probing immediately. -/
theorem c9_options_swallow_cex :
    (createTeamConfigured envC9 "Growth").attempts =
      [("/teams", Payload.pName), ("/teams", Payload.pTeamName), ("/teams", Payload.pTitle),
       ("/teams/create", Payload.pName), ("/teams/create", Payload.pName)] ∧
    (createTeamConfigured envC9 "Growth").result =
      Except.error (decorateTeamCreateError 500 "/teams/create") :=
  ⟨rfl, rfl⟩

/-- C9 amended: the first successful attempt short-circuits its grid; a
primary `/teams` attempt failing with a non-400/404/405 HTTP status aborts
immediately with a decorated error, before any alternate path; and the
alternate paths are probed only after all three primary attempts failed with
400/404/405 or status-less errors. Inside the OPTIONS-guided branch an abort
is swallowed by the surrounding catch and the alternates are probed once more
before the error propagates from the final loop. -/
theorem c9_probing_discipline :
    (∀ (post : String → Payload → PostResult) (safeName : String) (cell : String × Payload)
        (rest : List (String × Payload)) (resp : TeamResp),
        post cell.1 cell.2 = PostResult.ok resp →
        tryGrid post safeName (cell :: rest) =
          ([cell], GridOut.success (teamFromResp resp safeName))) ∧
    (∀ (env : CreateEnv) (safeName : String) (p : String) (st : Nat),
        (tryGrid env.post safeName primaryCells).2 = GridOut.abort p st →
        createTeamConfigured env safeName =
          ⟨(tryGrid env.post safeName primaryCells).1, false,
           Except.error (decorateTeamCreateError st p)⟩) ∧
    (∀ (env : CreateEnv) (safeName : String) (cell : String × Payload),
        cell ∈ (createTeamConfigured env safeName).attempts → cell.1 ≠ "/teams" →
        ∀ c ∈ primaryCells, ∃ stc, env.post c.1 c.2 = PostResult.fail stc ∧
          abortStatus stc = false) := by
  refine ⟨?_, ?_, ?_⟩
  · intro post safeName cell rest resp hpost
    simp only [tryGrid, hpost]
  · intro env safeName p st habort
    simp only [createTeamConfigured, habort]
  · intro env safeName cell hmem hne c hc
    rcases hout : (tryGrid env.post safeName primaryCells).2 with t | ⟨p, st0⟩ | _
    · exfalso
      apply hne
      apply primaryCells_path cell
      apply tryGrid_attempts_subset env.post safeName primaryCells
      simp only [createTeamConfigured, hout] at hmem
      exact hmem
    · exfalso
      apply hne
      apply primaryCells_path cell
      apply tryGrid_attempts_subset env.post safeName primaryCells
      simp only [createTeamConfigured, hout] at hmem
      exact hmem
    · exact tryGrid_exhausted_benign env.post safeName primaryCells hout c hc

/-- C9 amended witness: a succeeding first cell short-circuits; an all-500
backend aborts on the primary path; and in the counterexample environment the
primary failures were all benign. -/
theorem c9_probing_discipline_witness :
    tryGrid postOkW "Growth" [("/teams", Payload.pName)] =
      ([("/teams", Payload.pName)], GridOut.success (teamFromResp respW "Growth")) ∧
    createTeamConfigured envAbortW "Growth" =
      ⟨(tryGrid envAbortW.post "Growth" primaryCells).1, false,
        Except.error (decorateTeamCreateError 500 "/teams")⟩ ∧
    (∃ stc, envC9.post "/teams" Payload.pName = PostResult.fail stc ∧
      abortStatus stc = false) :=
  ⟨c9_probing_discipline.1 postOkW "Growth" ("/teams", Payload.pName) [] respW rfl,
   c9_probing_discipline.2.1 envAbortW "Growth" "/teams" 500 (by decide),
   c9_probing_discipline.2.2 envC9 "Growth" ("/teams/create", Payload.pName) (by decide)
     (by decide) ("/teams", Payload.pName) (by decide)⟩

end WeeklyReport
